import Mathlib

/-!
custom-metrics-boilerplate: the adapter and its Prometheus backend.

A shallow embedding of

* `pkg/sample-cmd/provider/prometheus/prometheus.go` (the Prometheus-flavoured
  backend: `validateMetricName`, `buildQuery`, `ValueForMetric`,
  `ListAllMetrics`), and
* `pkg/provider/default/provider.go` (the adapter: `metricFor`, `metricsFor`,
  the by-name and by-selector entry points),

followed by the properties established about them.

Go strings are Lean `String`s, `int64` values are `Int`s (no arithmetic is
performed on them apart from the float conversion, whose range is explicit),
`float64` is the dyadic model `F64`, a `(T, error)` result is an `Except`,
and a run-time panic is an explicit `Outcome.panicked`.
Collaborators that live outside the two files (the Unicode tables of the Go
standard library, the Prometheus query client, the HTTP catalog endpoint, the
API registry, the wall clock) are parameters.
-/

namespace CustomMetrics

/-! ## Go standard library: `strings`, `strconv`, `fmt` -/

/-- Unicode tables of the Go standard library that the code consults:
`strconv.IsPrint` (through the `%q` verb) and `unicode.ToLower` (through
`strings.ToLower`). -/
structure Unicode where
  IsPrint : Char → Bool
  ToLower : Char → Char

/-- The ASCII fragment of the tables: printable characters are U+0020..U+007E
and only `A`..`Z` have a lower-case mapping. It agrees with Go on every
ASCII string. -/
def asciiTables : Unicode where
  IsPrint := fun c => decide (32 ≤ c.toNat ∧ c.toNat < 127)
  ToLower := fun c => if 65 ≤ c.toNat ∧ c.toNat ≤ 90 then Char.ofNat (c.toNat + 32) else c

/-- Go `len(s)`: the number of bytes of the UTF-8 encoding. -/
def len (s : String) : Nat := s.utf8ByteSize

/-- Go `strings.HasSuffix`. -/
def HasSuffix (s suffix : String) : Bool := suffix.data.isSuffixOf s.data

/-- Go `strings.HasPrefix`. -/
def HasPrefix (s pre : String) : Bool := pre.data.isPrefixOf s.data

/-- Go `strings.ToLower`: every rune is mapped through `unicode.ToLower`. -/
def ToLower (u : Unicode) (s : String) : String := ⟨s.data.map u.ToLower⟩

/-- Go `strings.Join`. -/
def Join : List String → String → String
  | [], _ => ""
  | [a], _ => a
  | a :: b :: rest, sep => a ++ sep ++ Join (b :: rest) sep

/-- The `lowerhex` table of `strconv`. -/
def lowerhex (n : Nat) : Char := "0123456789abcdef".data.getD n '0'

/-- The hexadecimal digits of `r` for the shifts `4*(k-1), ..., 4, 0`. -/
def hexDigits (r : Nat) : Nat → List Char
  | 0 => []
  | k + 1 => lowerhex ((r >>> (4 * k)) % 16) :: hexDigits r k

/-- Go `strconv.appendEscapedRune` with `quote = '"'`, `ASCIIonly = false`,
`graphicOnly = false` (the settings of `strconv.Quote`, which `%q` uses). A
Lean `Char` is always a valid rune, so the `!utf8.ValidRune` case is absent. -/
def appendEscapedRune (u : Unicode) (r : Char) : List Char :=
  if r = '"' ∨ r = '\\' then ['\\', r]
  else if u.IsPrint r then [r]
  else if r.toNat = 7 then ['\\', 'a']
  else if r.toNat = 8 then ['\\', 'b']
  else if r.toNat = 12 then ['\\', 'f']
  else if r.toNat = 10 then ['\\', 'n']
  else if r.toNat = 13 then ['\\', 'r']
  else if r.toNat = 9 then ['\\', 't']
  else if r.toNat = 11 then ['\\', 'v']
  else if r.toNat < 32 ∨ r.toNat = 127 then '\\' :: 'x' :: hexDigits r.toNat 2
  else if r.toNat < 65536 then '\\' :: 'u' :: hexDigits r.toNat 4
  else '\\' :: 'U' :: hexDigits r.toNat 8

/-- The runes of `s`, each escaped as `strconv.Quote` does. -/
def escapeRunes (u : Unicode) : List Char → List Char
  | [] => []
  | r :: rest => appendEscapedRune u r ++ escapeRunes u rest

/-- Go `fmt.Sprintf("%q", s)`, that is `strconv.Quote(s)`. -/
def quote (u : Unicode) (s : String) : String :=
  ⟨'"' :: (escapeRunes u s.data ++ ['"'])⟩

/-- Go `fmt.Sprintf("%d", n)` for an `int64`. -/
def formatInt (n : Int) : String :=
  if n < 0 then "-" ++ Nat.repr n.natAbs else Nat.repr n.toNat

/-! ## `prometheus.go`: name admission and query construction -/

/-- Source `validateMetricName` (prometheus.go:128-131). -/
def validateMetricName (metricName : String) : Bool :=
  HasSuffix metricName "_total"

/-- Source `buildQuery` (prometheus.go:133-141). -/
def buildQuery (u : Unicode) (name resource metricName nspace : String)
    (resolutionSeconds : Int) : String :=
  let selectors := ["namespace=" ++ quote u nspace]
  let selectors :=
    if HasPrefix (ToLower u resource) "service" then
      selectors ++ ["svc_name=" ++ quote u name]
    else if HasPrefix (ToLower u resource) "pod" then
      selectors ++ ["pod_name=" ++ quote u name]
    else selectors
  "sum(rate(" ++ metricName ++ "\x7b" ++ Join selectors "," ++ "\x7d[" ++
    formatInt resolutionSeconds ++ "s]))"

/-- A string that `%q` renders verbatim between two double quotes: every
character is printable and is neither the double quote nor the backslash. -/
def Plain (u : Unicode) (s : String) : Prop :=
  ∀ c ∈ s.data, u.IsPrint c = true ∧ c ≠ '"' ∧ c ≠ '\\'

/-! ## Go `float64` and the conversion `int64(f)` -/

/-- An IEEE-754 binary64 value. `finite neg mant exp` stands for
`(-1)^neg * mant * 2^exp`. -/
inductive F64
  | finite (neg : Bool) (mant : Nat) (exp : Int)
  | inf (neg : Bool)
  | nan
deriving DecidableEq, Repr

/-- Number of binary digits of `m`, by halving (`fuel` bounds the recursion). -/
def bitLengthAux : Nat → Nat → Nat
  | 0, _ => 0
  | fuel + 1, m => if m = 0 then 0 else bitLengthAux fuel (m / 2) + 1

/-- Number of binary digits of `m` (`0` for `m = 0`). -/
def bitLength (m : Nat) : Nat := bitLengthAux m m

/-- Round the real `(-1)^neg * m * 2^e` to binary64, to nearest with ties to
even: at most 53 significant bits, no exponent below `-1074` (gradual
underflow), and infinity from `2^1024` on. -/
def F64.round (neg : Bool) (m : Nat) (e : Int) : F64 :=
  if m = 0 then F64.finite neg 0 0
  else
    let k : Int := max ((bitLength m : Int) - 53) (-1074 - e)
    if k ≤ 0 then
      if (bitLength m : Int) + e > 1024 then F64.inf neg else F64.finite neg m e
    else
      let s := k.toNat
      let q := m / 2 ^ s
      let r := m % 2 ^ s
      let half := 2 ^ (s - 1)
      let q1 := if r > half ∨ (r = half ∧ q % 2 = 1) then q + 1 else q
      if (bitLength q1 : Int) + (e + k) > 1024 then F64.inf neg
      else F64.finite neg q1 (e + k)

/-- Go `x * y` on `float64`. -/
def F64.mul : F64 → F64 → F64
  | F64.nan, _ => F64.nan
  | _, F64.nan => F64.nan
  | F64.inf s, F64.inf t => F64.inf (xor s t)
  | F64.inf s, F64.finite t m _ => if m = 0 then F64.nan else F64.inf (xor s t)
  | F64.finite s m _, F64.inf t => if m = 0 then F64.nan else F64.inf (xor s t)
  | F64.finite s m e, F64.finite t n f => F64.round (xor s t) (m * n) (e + f)

/-- The constant `1000` as a `float64` (exact). -/
def F64.thousand : F64 := F64.finite false 1000 0

/-- The integer part of a finite value, the fraction discarded. -/
def F64.truncate (neg : Bool) (mant : Nat) (exp : Int) : Int :=
  let t : Nat := if 0 ≤ exp then mant * 2 ^ exp.toNat else mant / 2 ^ (-exp).toNat
  if neg then -(t : Int) else (t : Int)

/-- Go `int64(f)` for a `float64`: the fraction is discarded (truncation
towards zero). When the value does not fit, or `f` is not finite, the Go
specification leaves the result implementation-dependent: `outOfRange f`. -/
def int64 (outOfRange : F64 → Int) (f : F64) : Int :=
  match f with
  | F64.finite neg mant exp =>
    let v := F64.truncate neg mant exp
    if -(2 ^ 63 : Int) ≤ v ∧ v < (2 ^ 63 : Int) then v else outOfRange f
  | _ => outOfRange f

/-- The rational number a finite `float64` stands for (`0` for the others). -/
def F64.toRat : F64 → ℚ
  | F64.finite neg mant exp =>
    (if neg then -1 else 1) * (mant : ℚ) * (2 : ℚ) ^ exp
  | _ => 0

/-- Truncation of a rational towards zero. -/
def truncTowardZero (x : ℚ) : Int := if 0 ≤ x then ⌊x⌋ else ⌈x⌉

/-- A finite `float64`. -/
def F64.isFinite : F64 → Bool
  | F64.finite _ _ _ => true
  | _ => false

/-! ## `prometheus.go`: the backend -/

/-- Go `schema.GroupResource`. -/
structure GroupResource where
  Group : String
  Resource : String
deriving DecidableEq, Repr

/-- Go `model.Sample`; only `Value` (a `model.SampleValue`, that is a
`float64`) is read by the code. -/
structure Sample where
  Value : F64
deriving DecidableEq, Repr

/-- The dynamic type of the `model.Value` that `Query` returns, as far as
the type assertion `vectorObj.(model.Vector)` tells them apart. A
`model.Vector` is a `[]*Sample`: `none` is the nil slice and an element
`none` is a nil pointer. -/
inductive ModelValue
  | vector (v : Option (List (Option Sample)))
  | other
deriving DecidableEq, Repr

/-- The query API of a constructed client: `Query(ctx, query, time.Now())`. -/
abbrev QueryAPI := String → Except String ModelValue

/-- What the backend reaches outside itself. -/
structure Env where
  /-- Unicode tables of the Go standard library -/
  unicode : Unicode
  /-- Package `clientapi`: `New(Config{Address})` followed by `NewQueryAPI` -/
  New : String → Except String QueryAPI
  /-- Result of `int64(f)` where Go leaves it implementation-dependent -/
  outOfRange : F64 → Int

/-- What a run of `ValueForMetric` does that is visible from outside. -/
inductive Event
  | println (s : String)
  | printVector (v : List (Option Sample))
  | printFloat (f : F64)
  | newClient (address : String)
  | query (q : String)
deriving DecidableEq, Repr

/-- A Go call either returns or panics. -/
inductive Outcome (α : Type)
  | returned (a : α)
  | panicked
deriving DecidableEq, Repr

/-- Source `promCustomMetricsImplementation` (prometheus.go:43-46). -/
structure promCustomMetricsImplementation where
  endpoint : String
  resolutionSeconds : Int
deriving DecidableEq, Repr

/-- Source `NewPrometheusImplementation` (prometheus.go:36-41). -/
def NewPrometheusImplementation (endpoint : String) (resolutionSeconds : Int) :
    promCustomMetricsImplementation :=
  { endpoint := endpoint, resolutionSeconds := resolutionSeconds }

/-- Source `promCustomMetricsImplementation.ValueForMetric`
(prometheus.go:48-87): the returned pair (or the panic) together with the
events of the run, in order. -/
def promCustomMetricsImplementation.ValueForMetric (env : Env)
    (p : promCustomMetricsImplementation) (name : String)
    (groupResource : GroupResource) (nspace metricName : String) :
    Outcome (Int × Int) × List Event :=
  if !validateMetricName metricName then
    (Outcome.returned (0, p.resolutionSeconds), [])
  else if len nspace == 0 then
    (Outcome.returned (0, p.resolutionSeconds), [])
  else
    let query := buildQuery env.unicode name groupResource.Resource metricName nspace
      p.resolutionSeconds
    let t1 := [Event.println query, Event.newClient p.endpoint]
    match env.New p.endpoint with
    | Except.error err =>
      (Outcome.returned (0, p.resolutionSeconds), t1 ++ [Event.println err])
    | Except.ok queryAPI =>
      let t2 := t1 ++ [Event.query query]
      match queryAPI query with
      | Except.error err =>
        (Outcome.returned (0, p.resolutionSeconds), t2 ++ [Event.println err])
      | Except.ok ModelValue.other => (Outcome.panicked, t2)
      | Except.ok (ModelValue.vector none) =>
        (Outcome.returned (0, p.resolutionSeconds), t2 ++ [Event.println "vector is nil"])
      | Except.ok (ModelValue.vector (some [])) =>
        (Outcome.returned (0, p.resolutionSeconds),
          t2 ++ [Event.println "vector doesn't contain any elements"])
      | Except.ok (ModelValue.vector (some (first :: rest))) =>
        let t3 := t2 ++ [Event.printVector (first :: rest)]
        match first with
        | none => (Outcome.panicked, t3)
        | some sample =>
          let floatVal := sample.Value
          let intVal := int64 env.outOfRange (F64.mul floatVal F64.thousand)
          (Outcome.returned (intVal, p.resolutionSeconds), t3 ++ [Event.printFloat floatVal])

/-! ## `prometheus.go`: discovery -/

/-- A JSON document, as `encoding/json` reads it. -/
inductive JSON
  | null
  | bool (b : Bool)
  | num (n : Int)
  | str (s : String)
  | arr (items : List JSON)
  | obj (members : List (String × JSON))

/-- The body of an HTTP response as `ioutil.ReadAll` and `json.Unmarshal`
see it: reading fails, or the bytes are not JSON, or they are a document. -/
inductive Body
  | unreadable (err : String)
  | malformed
  | json (j : JSON)

/-- The catalog endpoint: `http.Get(url)` returns an error or a response. -/
abbrev HttpGet := String → Except String Body

/-- Source `promLabelValues` (prometheus.go:143-146). Both field names start
with a lower-case letter. -/
structure promLabelValues where
  status : String
  data : List String
deriving DecidableEq, Repr

/-- The field names of `promLabelValues`, as declared. -/
def promLabelValues.fieldNames : List String := ["status", "data"]

/-- Go's export rule: an identifier is exported when its first character is
an upper-case letter. -/
def isExported (ident : String) : Bool :=
  match ident.data with
  | c :: _ => c.isUpper
  | [] => false

/-- The fields `encoding/json` may access: "the json package only accesses
the exported fields of struct types". -/
def promLabelValues.jsonFields : List String :=
  promLabelValues.fieldNames.filter isExported

/-- A JSON string. -/
def JSON.asString : JSON → Except String String
  | JSON.str s => Except.ok s
  | _ => Except.error "json: cannot unmarshal into Go value of type string"

/-- Store a JSON value into the named field (`status string`,
`data []string`); JSON `null` leaves a string as it is and empties a slice. -/
def promLabelValues.store (v : promLabelValues) (field : String) (j : JSON) :
    Except String promLabelValues :=
  if field = "status" then
    match j with
    | JSON.null => Except.ok v
    | JSON.str s => Except.ok { v with status := s }
    | _ => Except.error "json: cannot unmarshal into Go struct field status of type string"
  else if field = "data" then
    match j with
    | JSON.null => Except.ok { v with data := [] }
    | JSON.arr items =>
      match items.mapM JSON.asString with
      | Except.ok l => Except.ok { v with data := l }
      | Except.error e => Except.error e
    | _ => Except.error "json: cannot unmarshal into Go struct field data of type []string"
  else Except.ok v

/-- The field an object key is decoded into: an accessible field whose name
equals the key, exactly or ignoring case. -/
def promLabelValues.fieldFor (key : String) : Option String :=
  match promLabelValues.jsonFields.find? (fun f => f == key) with
  | some f => some f
  | none => promLabelValues.jsonFields.find? (fun f => f.toLower == key.toLower)

/-- Decode the members of a JSON object one after the other; a key without
a field is skipped. -/
def promLabelValues.decodeMembers (v : promLabelValues) :
    List (String × JSON) → Except String promLabelValues
  | [] => Except.ok v
  | (key, value) :: rest =>
    match promLabelValues.fieldFor key with
    | none => promLabelValues.decodeMembers v rest
    | some field =>
      match v.store field value with
      | Except.ok v1 => promLabelValues.decodeMembers v1 rest
      | Except.error e => Except.error e

/-- Go `json.Unmarshal(body, labelvals)` for `labelvals *promLabelValues`,
once the body has been read as the document `j`. -/
def Unmarshal (j : JSON) (labelvals : promLabelValues) : Except String promLabelValues :=
  match j with
  | JSON.null => Except.ok labelvals
  | JSON.obj members => labelvals.decodeMembers members
  | _ => Except.error "json: cannot unmarshal into Go value of type prometheus.promLabelValues"

/-- Go `provider.MetricInfo`. -/
structure MetricInfo where
  GroupResource : GroupResource
  Metric : String
  Namespaced : Bool
deriving DecidableEq, Repr

/-- The loop of `ListAllMetrics` (prometheus.go:112-124). -/
def appendMetricInfo (metricInfo : List MetricInfo) : List String → List MetricInfo
  | [] => metricInfo
  | label :: rest =>
    if validateMetricName label then
      appendMetricInfo (metricInfo ++
        [{ GroupResource := { Group := "", Resource := "pods" }, Metric := label,
           Namespaced := true },
         { GroupResource := { Group := "", Resource := "services" }, Metric := label,
           Namespaced := true }]) rest
    else appendMetricInfo metricInfo rest

/-- Source `promCustomMetricsImplementation.ListAllMetrics`
(prometheus.go:89-126). -/
def promCustomMetricsImplementation.ListAllMetrics (get : HttpGet)
    (p : promCustomMetricsImplementation) : List MetricInfo :=
  let metricInfo : List MetricInfo := []
  let labelsEndpoint := p.endpoint ++ "/api/v1/label/__name__/values"
  match get labelsEndpoint with
  | Except.error _ => metricInfo
  | Except.ok (Body.unreadable _) => metricInfo
  | Except.ok Body.malformed => metricInfo
  | Except.ok (Body.json j) =>
    match Unmarshal j { status := "", data := [] } with
    | Except.error _ => metricInfo
    | Except.ok labelvals =>
      if labelvals.status != "success" then metricInfo
      else appendMetricInfo metricInfo labelvals.data

/-- The catalog `{"status":"success","data":["x_total","y"]}`. -/
def sampleCatalog : JSON :=
  JSON.obj [("status", JSON.str "success"),
            ("data", JSON.arr [JSON.str "x_total", JSON.str "y"])]

/-! ## `provider.go`: the adapter -/

/-- Go `schema.GroupVersion`. -/
structure GroupVersion where
  Group : String
  Version : String
deriving DecidableEq, Repr

/-- Go `apimachinery.GroupMeta`, of which only `GroupVersion` is read. -/
structure GroupMeta where
  GroupVersion : GroupVersion
deriving DecidableEq, Repr

/-- Go `schema.GroupVersionResource`. -/
structure GroupVersionResource where
  Group : String
  Version : String
  Resource : String
deriving DecidableEq, Repr

/-- Go `schema.GroupVersionKind`. -/
structure GroupVersionKind where
  Group : String
  Version : String
  Kind : String
deriving DecidableEq, Repr

/-- Go `GroupResource.WithVersion`. -/
def GroupResource.WithVersion (gr : GroupResource) (version : String) :
    GroupVersionResource :=
  { Group := gr.Group, Version := version, Resource := gr.Resource }

/-- The process-wide `api.Registry`: `Registry.Group(group)` and
`Registry.RESTMapper().KindFor(gvr)`. -/
structure Registry where
  Group : String → Except String GroupMeta
  KindFor : GroupVersionResource → Except String GroupVersionKind

/-- Go `runtime.APIVersionInternal`. -/
def APIVersionInternal : String := "__internal"

/-- Go `api.ObjectReference`, with the fields the adapter fills. -/
structure ObjectReference where
  APIVersion : String
  Kind : String
  Name : String
  Namespace : String
deriving DecidableEq, Repr

/-- Go `resource.Quantity`: an integer amount with a decimal scale. -/
structure Quantity where
  value : Int
  scale : Int
deriving DecidableEq, Repr

/-- Go `resource.NewMilliQuantity(value, resource.DecimalSI)`. -/
def NewMilliQuantity (value : Int) : Quantity := { value := value, scale := -3 }

/-- Go `custom_metrics.MetricValue`. `WindowSeconds` is a `*int64`. -/
structure MetricValue where
  DescribedObject : ObjectReference
  MetricName : String
  Timestamp : Int
  Value : Quantity
  WindowSeconds : Option Int
deriving DecidableEq, Repr

/-- Go `custom_metrics.MetricValueList`. `Items` is a slice: `none` is nil. -/
structure MetricValueList where
  Items : Option (List MetricValue)
deriving DecidableEq, Repr

/-- The object metadata read through `metav1.ObjectMetaAccessor`. -/
structure ObjectMeta where
  Name : String
  Namespace : String
deriving DecidableEq, Repr

/-- An element of a list object: it implements `metav1.ObjectMetaAccessor`
and exposes its metadata, or it does not. -/
inductive RuntimeItem
  | object (objMeta : ObjectMeta)
  | other
deriving DecidableEq, Repr

/-- A `runtime.Object` as the adapter sees it: `apimeta.IsListType` holds and
`apimeta.EachListItem` walks the items in order, or it is not a list. -/
inductive RuntimeObject
  | list (items : List RuntimeItem)
  | notList
deriving DecidableEq, Repr

/-- Go `provider.CustomMetricsImplementation`: the backend interface. -/
structure CustomMetricsImplementation where
  ValueForMetric : String → GroupResource → String → String → Outcome (Int × Int)
  ListAllMetrics : List MetricInfo

/-- The REST client of `coreclient.CoreV1Interface`, as used by the selector
queries: namespace (if any), resource and label selector give an object or
an error. -/
abbrev Lister := Option String → String → String → Except String RuntimeObject

/-- Source `DefaultMetricsProvider` (provider.go:38-41). -/
structure DefaultMetricsProvider where
  client : Lister
  impl : CustomMetricsImplementation

/-- Source `NewDefaultProvider` (provider.go:43-48). -/
def NewDefaultProvider (client : Lister) (impl : CustomMetricsImplementation) :
    DefaultMetricsProvider :=
  { client := client, impl := impl }

/-- What the adapter reaches outside itself: the API registry and the
successive readings of `time.Now()`. -/
structure Cluster where
  Registry : Registry
  clock : Nat → Int

/-- Source `DefaultMetricsProvider.metricFor` (provider.go:50-74); `now` is
the reading of `time.Now()`. -/
def DefaultMetricsProvider.metricFor (p : DefaultMetricsProvider) (reg : Registry)
    (now : Int) (groupResource : GroupResource) (nspace name metricName : String) :
    Outcome (Except String MetricValue) :=
  match reg.Group groupResource.Group with
  | Except.error err => Outcome.returned (Except.error err)
  | Except.ok group =>
    match reg.KindFor (groupResource.WithVersion group.GroupVersion.Version) with
    | Except.error err => Outcome.returned (Except.error err)
    | Except.ok kind =>
      match p.impl.ValueForMetric name groupResource nspace metricName with
      | Outcome.panicked => Outcome.panicked
      | Outcome.returned (value, window) =>
        Outcome.returned (Except.ok
          { DescribedObject :=
              { APIVersion := groupResource.Group ++ "/" ++ APIVersionInternal
                Kind := kind.Kind
                Name := name
                Namespace := nspace }
            MetricName := metricName
            Timestamp := now
            Value := NewMilliQuantity value
            WindowSeconds := some window })

/-- The walk of `apimeta.EachListItem` over the items with the callback of
`metricsFor` (provider.go:83-91): `res` is the slice built so far and `tick`
counts the readings of the clock. -/
def DefaultMetricsProvider.eachListItem (p : DefaultMetricsProvider) (c : Cluster)
    (groupResource : GroupResource) (metricName : String) :
    List RuntimeItem → Nat → List MetricValue → Outcome (Except String (List MetricValue))
  | [], _, res => Outcome.returned (Except.ok res)
  | RuntimeItem.other :: _, _, _ => Outcome.panicked
  | RuntimeItem.object objMeta :: rest, tick, res =>
    match p.metricFor c.Registry (c.clock tick) groupResource objMeta.Namespace objMeta.Name
        metricName with
    | Outcome.panicked => Outcome.panicked
    | Outcome.returned (Except.error err) => Outcome.returned (Except.error err)
    | Outcome.returned (Except.ok metric) =>
      DefaultMetricsProvider.eachListItem p c groupResource metricName rest (tick + 1)
        (res ++ [metric])

/-- Source `DefaultMetricsProvider.metricsFor` (provider.go:76-99). -/
def DefaultMetricsProvider.metricsFor (p : DefaultMetricsProvider) (c : Cluster)
    (groupResource : GroupResource) (metricName : String) (list : RuntimeObject) :
    Outcome (Except String MetricValueList) :=
  match list with
  | RuntimeObject.notList =>
    Outcome.returned (Except.error "returned object was not a list")
  | RuntimeObject.list items =>
    match p.eachListItem c groupResource metricName items 0 [] with
    | Outcome.panicked => Outcome.panicked
    | Outcome.returned (Except.error err) => Outcome.returned (Except.error err)
    | Outcome.returned (Except.ok res) => Outcome.returned (Except.ok { Items := some res })

/-- Source `DefaultMetricsProvider.GetRootScopedMetricByName`
(provider.go:101-109). -/
def DefaultMetricsProvider.GetRootScopedMetricByName (p : DefaultMetricsProvider)
    (c : Cluster) (groupResource : GroupResource) (name metricName : String) :
    Outcome (Except String MetricValueList) :=
  match p.metricFor c.Registry (c.clock 0) groupResource "" name metricName with
  | Outcome.panicked => Outcome.panicked
  | Outcome.returned (Except.error err) => Outcome.returned (Except.error err)
  | Outcome.returned (Except.ok metric) =>
    Outcome.returned (Except.ok { Items := some [metric] })

/-- Source `DefaultMetricsProvider.GetNamespacedMetricByName`
(provider.go:111-119). -/
def DefaultMetricsProvider.GetNamespacedMetricByName (p : DefaultMetricsProvider)
    (c : Cluster) (groupResource : GroupResource) (nspace name metricName : String) :
    Outcome (Except String MetricValueList) :=
  match p.metricFor c.Registry (c.clock 0) groupResource nspace name metricName with
  | Outcome.panicked => Outcome.panicked
  | Outcome.returned (Except.error err) => Outcome.returned (Except.error err)
  | Outcome.returned (Except.ok metric) =>
    Outcome.returned (Except.ok { Items := some [metric] })

/-- Source `DefaultMetricsProvider.GetRootScopedMetricBySelector`
(provider.go:121-132). -/
def DefaultMetricsProvider.GetRootScopedMetricBySelector (p : DefaultMetricsProvider)
    (c : Cluster) (groupResource : GroupResource) (selector metricName : String) :
    Outcome (Except String MetricValueList) :=
  match p.client none groupResource.Resource selector with
  | Except.error err => Outcome.returned (Except.error err)
  | Except.ok matchingObjectsRaw => p.metricsFor c groupResource metricName matchingObjectsRaw

/-- Source `DefaultMetricsProvider.GetNamespacedMetricBySelector`
(provider.go:134-146). -/
def DefaultMetricsProvider.GetNamespacedMetricBySelector (p : DefaultMetricsProvider)
    (c : Cluster) (groupResource : GroupResource) (nspace selector metricName : String) :
    Outcome (Except String MetricValueList) :=
  match p.client (some nspace) groupResource.Resource selector with
  | Except.error err => Outcome.returned (Except.error err)
  | Except.ok matchingObjectsRaw => p.metricsFor c groupResource metricName matchingObjectsRaw

/-- Source `DefaultMetricsProvider.ListAllMetrics` (provider.go:148-150). -/
def DefaultMetricsProvider.ListAllMetrics (p : DefaultMetricsProvider) : List MetricInfo :=
  p.impl.ListAllMetrics

/-- The Prometheus backend behind the `CustomMetricsImplementation`
interface, in the environment it runs in. -/
def promCustomMetricsImplementation.asImplementation (env : Env) (get : HttpGet)
    (p : promCustomMetricsImplementation) : CustomMetricsImplementation :=
  { ValueForMetric := fun name groupResource nspace metricName =>
      (p.ValueForMetric env name groupResource nspace metricName).1
    ListAllMetrics := p.ListAllMetrics get }

/-- A backend that returns `f` of its arguments on every call. -/
def returningBackend (f : String → GroupResource → String → String → Int × Int)
    (infos : List MetricInfo) : CustomMetricsImplementation :=
  { ValueForMetric := fun name groupResource nspace metricName =>
      Outcome.returned (f name groupResource nspace metricName)
    ListAllMetrics := infos }

/-- The kind of `groupResource`, resolved as `metricFor` does
(provider.go:51-58). -/
def resolveKind (reg : Registry) (groupResource : GroupResource) :
    Except String GroupVersionKind :=
  match reg.Group groupResource.Group with
  | Except.error err => Except.error err
  | Except.ok group => reg.KindFor (groupResource.WithVersion group.GroupVersion.Version)

/-! ## Concrete environments -/

/-- An environment in which no query client can be constructed. -/
def noClientEnv : Env :=
  { unicode := asciiTables
    New := fun _ => Except.error "no client"
    outOfRange := fun _ => -(2 ^ 63) }

/-- An environment whose query client gives the same answer to every query. -/
def answeringEnv (answer : Except String ModelValue) : Env :=
  { unicode := asciiTables
    New := fun _ => Except.ok (fun _ => answer)
    outOfRange := fun _ => -(2 ^ 63) }

/-- A backend with a resolution of 60 seconds. -/
def sampleBackend : promCustomMetricsImplementation :=
  NewPrometheusImplementation "http://prometheus:9090" 60

/-- The resource "pods" of the core group. -/
def podsResource : GroupResource := { Group := "", Resource := "pods" }

/-- The `float64` nearest to 1.2345, that is `5559693739988877 * 2^(-52)`. -/
def sample12345 : Sample := { Value := F64.finite false 5559693739988877 (-52) }

/-- The `float64` nearest to 4.35, that is `4897664594765414 * 2^(-50)`. -/
def sample435 : Sample := { Value := F64.finite false 4897664594765414 (-50) }

/-- The answers of the query client that `ValueForMetric` reads without
panicking: a vector that is nil, empty, or whose first element is a sample. -/
def ModelValue.readable : ModelValue → Bool
  | ModelValue.vector none => true
  | ModelValue.vector (some []) => true
  | ModelValue.vector (some (some _ :: _)) => true
  | ModelValue.vector (some (none :: _)) => false
  | ModelValue.other => false

/-- A registry that knows the core group only, with the kinds of "pods" and
"services". -/
def coreRegistry : Registry :=
  { Group := fun group =>
      if group = "" then Except.ok { GroupVersion := { Group := "", Version := "v1" } }
      else Except.error ("group " ++ group ++ " has not been registered")
    KindFor := fun gvr =>
      if gvr.Resource = "pods" then
        Except.ok { Group := gvr.Group, Version := gvr.Version, Kind := "Pod" }
      else if gvr.Resource = "services" then
        Except.ok { Group := gvr.Group, Version := gvr.Version, Kind := "Service" }
      else Except.error ("no matches for " ++ gvr.Resource) }

/-- A cluster with the core registry and a clock that advances by one. -/
def sampleCluster : Cluster :=
  { Registry := coreRegistry, clock := fun tick => 1500000000 + tick }

/-- A lister that finds no object. -/
def emptyLister : Lister := fun _ _ _ => Except.ok (RuntimeObject.list [])

/-- A catalog endpoint that cannot be reached. -/
def noCatalog : HttpGet := fun _ => Except.error "connection refused"

/-- A catalog endpoint that serves `sampleCatalog`. -/
def sampleCatalogEndpoint : HttpGet := fun _ => Except.ok (Body.json sampleCatalog)

/-- The resource "pods" of a group that is not registered. -/
def unknownGroupPods : GroupResource := { Group := "bogus", Resource := "pods" }

/-- A backend that answers `(7, 60)` to every call. -/
def constantBackend : CustomMetricsImplementation :=
  returningBackend (fun _ _ _ _ => (7, 60)) []

instance (u : Unicode) (s : String) : Decidable (Plain u s) := by
  unfold Plain; infer_instance

/-! ## Properties of the string helpers -/

theorem escapeRunes_of_plain (u : Unicode) (l : List Char)
    (h : ∀ c ∈ l, u.IsPrint c = true ∧ c ≠ '"' ∧ c ≠ '\\') : escapeRunes u l = l := by
  induction l with
  | nil => rfl
  | cons c rest ih =>
    have hc := h c (List.mem_cons_self c rest)
    have hrest := ih (fun d hd => h d (List.mem_cons_of_mem c hd))
    simp [escapeRunes, appendEscapedRune, hc.1, hc.2.1, hc.2.2, hrest]

theorem quote_of_plain (u : Unicode) (s : String) (h : Plain u s) :
    quote u s = "\"" ++ s ++ "\"" := by
  apply String.ext
  simp [quote, escapeRunes_of_plain u s.data h]

theorem not_service_of_pod (t : String) (h : HasPrefix t "pod" = true) :
    HasPrefix t "service" = false := by
  unfold HasPrefix at *
  cases ht : t.data with
  | nil => simp [ht] at h
  | cons c rest =>
    rw [ht] at h
    have h1 : 'p' = c := by
      have h2 := h
      simp [List.isPrefixOf] at h2
      exact h2.1
    subst h1
    simp [List.isPrefixOf]

/-! ## Query construction -/

/-- C1: for an object name and a namespace made of printable characters other
than the double quote and the backslash, and for every metric name and
resolution, `buildQuery` filters on `pod_name` when the lower-cased resource
starts with "pod" and on `svc_name` when it starts with "service", next to
the namespace filter, inside `sum(rate(<metric>[<R>s]))`. -/
theorem buildQuery_pod_service (u : Unicode) (name resource metricName nspace : String)
    (R : Int) (hname : Plain u name) (hns : Plain u nspace) :
    (HasPrefix (ToLower u resource) "pod" = true →
      buildQuery u name resource metricName nspace R =
        "sum(rate(" ++ metricName ++ "\x7bnamespace=\"" ++ nspace ++ "\",pod_name=\"" ++
          name ++ "\"\x7d[" ++ formatInt R ++ "s]))") ∧
    (HasPrefix (ToLower u resource) "service" = true →
      buildQuery u name resource metricName nspace R =
        "sum(rate(" ++ metricName ++ "\x7bnamespace=\"" ++ nspace ++ "\",svc_name=\"" ++
          name ++ "\"\x7d[" ++ formatInt R ++ "s]))") := by
  constructor
  · intro hpod
    have hsvc := not_service_of_pod (ToLower u resource) hpod
    apply String.ext
    simp [buildQuery, hpod, hsvc, Join, quote_of_plain u name hname,
      quote_of_plain u nspace hns]
  · intro hsvc
    apply String.ext
    simp [buildQuery, hsvc, Join, quote_of_plain u name hname,
      quote_of_plain u nspace hns]

/-- C1, at the pod query of the specification. -/
theorem buildQuery_pod_service_witness :
    Plain asciiTables "foo" ∧ Plain asciiTables "ns1" ∧
    HasPrefix (ToLower asciiTables "pods") "pod" = true ∧
    buildQuery asciiTables "foo" "pods" "http_total" "ns1" 60 =
      "sum(rate(http_total\x7bnamespace=\"ns1\",pod_name=\"foo\"\x7d[60s]))" :=
  ⟨by decide, by decide, by decide,
    ((buildQuery_pod_service asciiTables "foo" "pods" "http_total" "ns1" 60
      (by decide) (by decide)).1 (by decide)).trans (by decide)⟩

/-- C2 as written fails: for the kind "widgets" and a namespace that holds a
double quote, the namespace is escaped and the query is not the template with
the namespace copied between the quotes. -/
theorem other_kind_namespace_is_escaped :
    HasPrefix (ToLower asciiTables "widgets") "service" = false ∧
    HasPrefix (ToLower asciiTables "widgets") "pod" = false ∧
    buildQuery asciiTables "foo" "widgets" "http_total" "a\"b" 60 =
      "sum(rate(http_total\x7bnamespace=\"a\\\"b\"\x7d[60s]))" ∧
    buildQuery asciiTables "foo" "widgets" "http_total" "a\"b" 60 ≠
      "sum(rate(" ++ "http_total" ++ "\x7bnamespace=\"" ++ "a\"b" ++ "\"\x7d[" ++
        formatInt 60 ++ "s]))" := by
  decide

/-- C2, amended: when the lower-cased resource starts with neither "service"
nor "pod", the only filter of the query is the namespace, rendered by `%q`;
the query is the same for every object name; and for a namespace made of
printable characters other than the double quote and the backslash it is
`sum(rate(<metric>{namespace="<namespace>"}[<R>s]))`. -/
theorem buildQuery_other_kind (u : Unicode) (name resource metricName nspace : String)
    (R : Int) (hsvc : HasPrefix (ToLower u resource) "service" = false)
    (hpod : HasPrefix (ToLower u resource) "pod" = false) :
    buildQuery u name resource metricName nspace R =
      "sum(rate(" ++ metricName ++ "\x7bnamespace=" ++ quote u nspace ++ "\x7d[" ++
        formatInt R ++ "s]))" ∧
    (∀ other : String, buildQuery u other resource metricName nspace R =
      buildQuery u name resource metricName nspace R) ∧
    (Plain u nspace →
      buildQuery u name resource metricName nspace R =
        "sum(rate(" ++ metricName ++ "\x7bnamespace=\"" ++ nspace ++ "\"\x7d[" ++
          formatInt R ++ "s]))") := by
  refine ⟨?_, ?_, ?_⟩
  · apply String.ext
    simp [buildQuery, hsvc, hpod, Join]
  · intro other
    simp [buildQuery, hsvc, hpod]
  · intro hns
    apply String.ext
    simp [buildQuery, hsvc, hpod, Join, quote_of_plain u nspace hns]

/-- C2, amended, at the widgets query of the specification. -/
theorem buildQuery_other_kind_witness :
    HasPrefix (ToLower asciiTables "widgets") "service" = false ∧
    HasPrefix (ToLower asciiTables "widgets") "pod" = false ∧
    Plain asciiTables "ns1" ∧
    buildQuery asciiTables "foo" "widgets" "http_total" "ns1" 60 =
      "sum(rate(http_total\x7bnamespace=\"ns1\"\x7d[60s]))" :=
  ⟨by decide, by decide, by decide,
    ((buildQuery_other_kind asciiTables "foo" "widgets" "http_total" "ns1" 60
      (by decide) (by decide)).2.2 (by decide)).trans (by decide)⟩

/-! ## The backend: `ValueForMetric` -/

theorem len_eq_zero_iff (s : String) : len s = 0 ↔ s = "" := by
  constructor
  · intro h
    apply String.ext
    cases hd : s.data with
    | nil => rfl
    | cons c rest =>
      have h1 : len s = String.utf8Len (c :: rest) := by
        unfold len
        rw [← hd]
        rfl
      rw [h1] at h
      have hpos := Char.utf8Size_pos c
      rw [String.utf8Len_cons] at h
      omega
  · intro h
    subst h
    rfl

theorem hasSuffix_iff (s t : String) :
    HasSuffix s t = true ↔ ∃ pre : String, s = pre ++ t := by
  unfold HasSuffix
  rw [List.isSuffixOf_iff_suffix]
  constructor
  · rintro ⟨l, hl⟩
    refine ⟨⟨l⟩, ?_⟩
    apply String.ext
    simp [hl]
  · rintro ⟨pre, hpre⟩
    refine ⟨pre.data, ?_⟩
    rw [hpre]
    simp

theorem truncTowardZero_natCast (n : ℕ) : truncTowardZero (n : ℚ) = (n : Int) := by
  unfold truncTowardZero
  rw [if_pos (Nat.cast_nonneg n)]
  exact Int.floor_natCast n

theorem truncTowardZero_neg (y : ℚ) (hy : 0 ≤ y) :
    truncTowardZero (-y) = -truncTowardZero y := by
  unfold truncTowardZero
  rw [if_pos hy]
  by_cases h0 : y = 0
  · subst h0
    simp
  · have hlt : ¬ (0 : ℚ) ≤ -y := by
      have : 0 < y := lt_of_le_of_ne hy (Ne.symm h0)
      linarith
    rw [if_neg hlt, Int.ceil_neg]

theorem truncTowardZero_magnitude (mant : Nat) (exp : Int) :
    truncTowardZero ((mant : ℚ) * (2 : ℚ) ^ exp) =
      ((if 0 ≤ exp then mant * 2 ^ exp.toNat else mant / 2 ^ (-exp).toNat : Nat) : Int) := by
  by_cases he : 0 ≤ exp
  · rw [if_pos he]
    obtain ⟨n, rfl⟩ := Int.eq_ofNat_of_zero_le he
    have h1 : (mant : ℚ) * (2 : ℚ) ^ (n : Int) = ((mant * 2 ^ n : Nat) : ℚ) := by
      push_cast
      rw [zpow_natCast]
    rw [h1, truncTowardZero_natCast]
    simp
  · rw [if_neg he]
    have hneg : 0 ≤ -exp := by omega
    obtain ⟨n, hn⟩ := Int.eq_ofNat_of_zero_le hneg
    have hexp : exp = -(n : Int) := by omega
    have h1 : (mant : ℚ) * (2 : ℚ) ^ exp = (mant : ℚ) / ((2 ^ n : Nat) : ℚ) := by
      rw [hexp, zpow_neg, zpow_natCast]
      push_cast
      rw [div_eq_mul_inv]
    have h2 : (-exp).toNat = n := by omega
    rw [h1, h2]
    unfold truncTowardZero
    have hnn : (0 : ℚ) ≤ (mant : ℚ) / ((2 ^ n : Nat) : ℚ) := by positivity
    rw [if_pos hnn]
    exact Rat.floor_natCast_div_natCast mant (2 ^ n)

theorem truncate_eq_truncTowardZero (neg : Bool) (mant : Nat) (exp : Int) :
    F64.truncate neg mant exp = truncTowardZero (F64.finite neg mant exp).toRat := by
  unfold F64.truncate F64.toRat
  cases neg with
  | false =>
    simp only [Bool.false_eq_true, if_false, one_mul]
    rw [truncTowardZero_magnitude]
  | true =>
    simp only [if_true]
    have h1 : (-1 : ℚ) * (mant : ℚ) * (2 : ℚ) ^ exp = -((mant : ℚ) * (2 : ℚ) ^ exp) := by ring
    rw [h1, truncTowardZero_neg _ (by positivity), truncTowardZero_magnitude]

/-- C3: a metric name that does not end in "_total" gives `(0, W)` and an
empty run: no query is built or printed, no client is constructed and no
query is sent, in every environment. -/
theorem ValueForMetric_rejected_name (env : Env) (p : promCustomMetricsImplementation)
    (name : String) (groupResource : GroupResource) (nspace metricName : String)
    (h : ¬ ∃ pre : String, metricName = pre ++ "_total") :
    p.ValueForMetric env name groupResource nspace metricName =
      (Outcome.returned (0, p.resolutionSeconds), []) := by
  have hv : validateMetricName metricName = false := by
    unfold validateMetricName
    rw [← Bool.not_eq_true, hasSuffix_iff]
    exact h
  simp [promCustomMetricsImplementation.ValueForMetric, hv]

/-- C3, for the name "http_requests" and a client that would have answered
1.2345. -/
theorem ValueForMetric_rejected_name_witness :
    sampleBackend.ValueForMetric
        (answeringEnv (Except.ok (ModelValue.vector (some [some sample12345]))))
        "foo" podsResource "ns1" "http_requests" =
      (Outcome.returned (0, 60), []) :=
  ValueForMetric_rejected_name _ sampleBackend "foo" podsResource "ns1" "http_requests"
    (by rw [← hasSuffix_iff]; decide)

/-- C4: on each internal error of the run (the client cannot be constructed,
the query returns an error, the vector is nil, the vector is empty)
`ValueForMetric` returns `(0, W)`: it neither panics nor has an error to
return. -/
theorem ValueForMetric_internal_error (env : Env) (p : promCustomMetricsImplementation)
    (name : String) (groupResource : GroupResource) (nspace metricName : String)
    (h : (∃ err, env.New p.endpoint = Except.error err) ∨
      (∃ queryAPI, env.New p.endpoint = Except.ok queryAPI ∧
        ((∃ err, queryAPI (buildQuery env.unicode name groupResource.Resource metricName
            nspace p.resolutionSeconds) = Except.error err) ∨
         queryAPI (buildQuery env.unicode name groupResource.Resource metricName
            nspace p.resolutionSeconds) = Except.ok (ModelValue.vector none) ∨
         queryAPI (buildQuery env.unicode name groupResource.Resource metricName
            nspace p.resolutionSeconds) = Except.ok (ModelValue.vector (some []))))) :
    (p.ValueForMetric env name groupResource nspace metricName).1 =
      Outcome.returned (0, p.resolutionSeconds) := by
  unfold promCustomMetricsImplementation.ValueForMetric
  by_cases hv : validateMetricName metricName = true
  · by_cases hl : len nspace = 0
    · simp [hv, hl]
    · rcases h with ⟨err, he⟩ | ⟨queryAPI, hn, ⟨err, he⟩ | he | he⟩
      · simp [hv, hl, he]
      · simp [hv, hl, he, hn]
      · simp [hv, hl, he, hn]
      · simp [hv, hl, he, hn]
  · simp [hv]

/-- C4, for a query that returns an empty vector. -/
theorem ValueForMetric_internal_error_witness :
    (sampleBackend.ValueForMetric (answeringEnv (Except.ok (ModelValue.vector (some []))))
        "foo" podsResource "ns1" "http_total").1 =
      Outcome.returned (0, 60) :=
  ValueForMetric_internal_error _ sampleBackend "foo" podsResource "ns1" "http_total"
    (Or.inr ⟨_, rfl, Or.inr (Or.inr rfl)⟩)

/-- C9: for an admitted metric name and a non-empty namespace, when the
client is constructed and the query returns a vector whose first sample is
`v`, with the `float64` product `v * 1000` finite and its integer part in
the `int64` range, the value returned is that product truncated towards zero,
paired with the configured window. -/
theorem ValueForMetric_truncates (env : Env) (p : promCustomMetricsImplementation)
    (name : String) (groupResource : GroupResource) (nspace metricName : String)
    (queryAPI : QueryAPI) (sample : Sample) (rest : List (Option Sample))
    (hvalid : validateMetricName metricName = true) (hns : nspace ≠ "")
    (hnew : env.New p.endpoint = Except.ok queryAPI)
    (hquery : queryAPI (buildQuery env.unicode name groupResource.Resource metricName
        nspace p.resolutionSeconds) = Except.ok (ModelValue.vector (some (some sample :: rest))))
    (hfinite : (F64.mul sample.Value F64.thousand).isFinite = true)
    (hrange : -(2 ^ 63 : Int) ≤ truncTowardZero (F64.mul sample.Value F64.thousand).toRat ∧
      truncTowardZero (F64.mul sample.Value F64.thousand).toRat < (2 ^ 63 : Int)) :
    (p.ValueForMetric env name groupResource nspace metricName).1 =
      Outcome.returned
        (truncTowardZero (F64.mul sample.Value F64.thousand).toRat, p.resolutionSeconds) := by
  have hl : ¬ len nspace = 0 := fun h => hns ((len_eq_zero_iff nspace).1 h)
  unfold promCustomMetricsImplementation.ValueForMetric
  simp only [hvalid, hl, hnew, hquery]
  cases hprod : F64.mul sample.Value F64.thousand with
  | finite neg mant exp =>
    rw [hprod] at hrange
    rw [← truncate_eq_truncTowardZero] at hrange ⊢
    norm_num at hrange
    simp [int64, hl, hrange]
  | inf neg => rw [hprod] at hfinite; simp [F64.isFinite] at hfinite
  | nan => rw [hprod] at hfinite; simp [F64.isFinite] at hfinite

theorem product_12345 :
    F64.mul sample12345.Value F64.thousand = F64.finite false 5429388417957888 (-42) := by
  decide

theorem truncated_product_12345 :
    truncTowardZero (F64.mul sample12345.Value F64.thousand).toRat = 1234 := by
  rw [product_12345, ← truncate_eq_truncTowardZero]
  decide

/-- C9, for a first sample of 1.2345: the product is 1234.5 and the value
returned is 1234. -/
theorem ValueForMetric_truncates_witness :
    (sampleBackend.ValueForMetric
        (answeringEnv (Except.ok (ModelValue.vector (some [some sample12345]))))
        "foo" podsResource "ns1" "http_total").1 =
      Outcome.returned (1234, 60) :=
  (ValueForMetric_truncates _ sampleBackend "foo" podsResource "ns1" "http_total" _
    sample12345 [] (by decide) (by decide) rfl rfl (by decide)
    (by rw [truncated_product_12345]; decide)).trans
    (by rw [truncated_product_12345]; rfl)

/-- The product of C9 is the `float64` product, rounded to nearest: for the
`float64` nearest to 4.35 it is exactly 4350, which is the value returned,
while the exact product of that number by 1000 lies below 4350. -/
theorem float_product_435 :
    F64.mul sample435.Value F64.thousand = F64.finite false 4782875580825600 (-40) ∧
    (sampleBackend.ValueForMetric
        (answeringEnv (Except.ok (ModelValue.vector (some [some sample435]))))
        "foo" podsResource "ns1" "http_total").1 = Outcome.returned (4350, 60) ∧
    sample435.Value.toRat * 1000 < 4350 := by
  refine ⟨by decide, by decide, ?_⟩
  simp only [sample435, F64.toRat]
  norm_num

theorem ValueForMetric_of_empty_namespace (env : Env) (p : promCustomMetricsImplementation)
    (name : String) (groupResource : GroupResource) (metricName : String) :
    p.ValueForMetric env name groupResource "" metricName =
      (Outcome.returned (0, p.resolutionSeconds), []) := by
  have hl : len "" = 0 := rfl
  unfold promCustomMetricsImplementation.ValueForMetric
  by_cases hv : validateMetricName metricName = true
  · simp [hv, hl]
  · simp [hv]

theorem ValueForMetric_of_readable (env : Env) (p : promCustomMetricsImplementation)
    (name : String) (groupResource : GroupResource) (nspace metricName : String)
    (h : ∀ queryAPI answer, env.New p.endpoint = Except.ok queryAPI →
      queryAPI (buildQuery env.unicode name groupResource.Resource metricName nspace
        p.resolutionSeconds) = Except.ok answer → answer.readable = true) :
    ∃ value, (p.ValueForMetric env name groupResource nspace metricName).1 =
      Outcome.returned (value, p.resolutionSeconds) := by
  unfold promCustomMetricsImplementation.ValueForMetric
  by_cases hv : validateMetricName metricName = true
  · by_cases hl : len nspace = 0
    · exact ⟨0, by simp [hv, hl]⟩
    · cases hn : env.New p.endpoint with
      | error err => exact ⟨0, by simp [hv, hl, hn]⟩
      | ok queryAPI =>
        cases hq : queryAPI (buildQuery env.unicode name groupResource.Resource metricName
            nspace p.resolutionSeconds) with
        | error err => exact ⟨0, by simp [hv, hl, hn, hq]⟩
        | ok answer =>
          have hr := h queryAPI answer hn hq
          match answer, hr with
          | ModelValue.vector none, _ => exact ⟨0, by simp [hv, hl, hn, hq]⟩
          | ModelValue.vector (some []), _ => exact ⟨0, by simp [hv, hl, hn, hq]⟩
          | ModelValue.vector (some (some sample :: rest)), _ =>
            exact ⟨int64 env.outOfRange (F64.mul sample.Value F64.thousand),
              by simp [hv, hl, hn, hq]⟩
  · exact ⟨0, by simp [hv]⟩

/-! ## The adapter -/

theorem metricFor_of_resolved (p : DefaultMetricsProvider) (reg : Registry) (now : Int)
    (groupResource : GroupResource) (nspace name metricName : String)
    (kind : GroupVersionKind) (value window : Int)
    (hkind : resolveKind reg groupResource = Except.ok kind)
    (hval : p.impl.ValueForMetric name groupResource nspace metricName =
      Outcome.returned (value, window)) :
    p.metricFor reg now groupResource nspace name metricName =
      Outcome.returned (Except.ok
        { DescribedObject :=
            { APIVersion := groupResource.Group ++ "/" ++ APIVersionInternal
              Kind := kind.Kind
              Name := name
              Namespace := nspace }
          MetricName := metricName
          Timestamp := now
          Value := NewMilliQuantity value
          WindowSeconds := some window }) := by
  unfold resolveKind at hkind
  unfold DefaultMetricsProvider.metricFor
  cases hg : reg.Group groupResource.Group with
  | error err => simp [hg] at hkind
  | ok group =>
    simp only [hg] at hkind
    simp only [hkind, hval]

theorem metricFor_of_unresolved (p : DefaultMetricsProvider) (reg : Registry) (now : Int)
    (groupResource : GroupResource) (nspace name metricName : String) (err : String)
    (hkind : resolveKind reg groupResource = Except.error err) :
    p.metricFor reg now groupResource nspace name metricName =
      Outcome.returned (Except.error err) := by
  unfold resolveKind at hkind
  unfold DefaultMetricsProvider.metricFor
  cases hg : reg.Group groupResource.Group with
  | error e =>
    simp only [hg] at hkind
    cases hkind
    rfl
  | ok group =>
    simp only [hg] at hkind
    simp only [hkind]

/-- C10: with an empty namespace `ValueForMetric` returns `(0, W)` and its
run is empty (no query built or printed, no client constructed, no query
sent), whatever the metric name; so a root-scoped by-name query over this
backend that succeeds holds exactly one sample, of value 0. -/
theorem root_scoped_value_is_zero (env : Env) (get : HttpGet) (lister : Lister)
    (c : Cluster) (p : promCustomMetricsImplementation) (name : String)
    (groupResource : GroupResource) (metricName : String) :
    p.ValueForMetric env name groupResource "" metricName =
      (Outcome.returned (0, p.resolutionSeconds), []) ∧
    ∀ list : MetricValueList,
      (NewDefaultProvider lister (p.asImplementation env get)).GetRootScopedMetricByName c
          groupResource name metricName = Outcome.returned (Except.ok list) →
      ∃ metric, list.Items = some [metric] ∧ metric.Value = NewMilliQuantity 0 := by
  refine ⟨ValueForMetric_of_empty_namespace env p name groupResource metricName, ?_⟩
  intro list hlist
  have hval : (NewDefaultProvider lister (p.asImplementation env get)).impl.ValueForMetric
      name groupResource "" metricName = Outcome.returned (0, p.resolutionSeconds) := by
    simp [NewDefaultProvider, promCustomMetricsImplementation.asImplementation,
      ValueForMetric_of_empty_namespace]
  unfold DefaultMetricsProvider.GetRootScopedMetricByName at hlist
  cases hk : resolveKind c.Registry groupResource with
  | error err =>
    rw [metricFor_of_unresolved _ _ _ _ _ _ _ err hk] at hlist
    simp at hlist
  | ok kind =>
    rw [metricFor_of_resolved _ _ _ _ _ _ _ kind 0 p.resolutionSeconds hk hval] at hlist
    simp only [Outcome.returned.injEq, Except.ok.injEq] at hlist
    subst hlist
    exact ⟨_, rfl, rfl⟩

/-- C10, for "http_total", a name that the admission check lets through, and
a client that would have answered 1.2345. -/
theorem root_scoped_value_is_zero_witness :
    (NewDefaultProvider emptyLister
        (sampleBackend.asImplementation
          (answeringEnv (Except.ok (ModelValue.vector (some [some sample12345]))))
          noCatalog)).GetRootScopedMetricByName sampleCluster podsResource "foo"
        "http_total" =
      Outcome.returned (Except.ok
        { Items := some
            [{ DescribedObject :=
                 { APIVersion := "/__internal", Kind := "Pod", Name := "foo", Namespace := "" }
               MetricName := "http_total"
               Timestamp := 1500000000
               Value := { value := 0, scale := -3 }
               WindowSeconds := some 60 }] }) ∧
    ∃ metric : MetricValue,
      some
          [({ DescribedObject :=
                { APIVersion := "/__internal", Kind := "Pod", Name := "foo", Namespace := "" }
              MetricName := "http_total"
              Timestamp := 1500000000
              Value := { value := 0, scale := -3 }
              WindowSeconds := some 60 } : MetricValue)] = some [metric] ∧
        metric.Value = NewMilliQuantity 0 :=
  ⟨rfl,
    (root_scoped_value_is_zero
      (answeringEnv (Except.ok (ModelValue.vector (some [some sample12345]))))
      noCatalog emptyLister sampleCluster sampleBackend "foo" podsResource "http_total").2
      _ rfl⟩

/-- C5 as written fails: the kind of "pods" resolves, the metric name is
admitted and the namespace is not empty, but the query client answers with a
value that is not a vector; the type assertion of `ValueForMetric` panics and
the by-name query returns no sample. -/
theorem by_name_panics_on_non_vector :
    resolveKind sampleCluster.Registry podsResource =
      Except.ok { Group := "", Version := "v1", Kind := "Pod" } ∧
    (NewDefaultProvider emptyLister
        (sampleBackend.asImplementation (answeringEnv (Except.ok ModelValue.other))
          noCatalog)).GetNamespacedMetricByName sampleCluster podsResource "ns1" "foo"
        "http_total" = Outcome.panicked :=
  ⟨rfl, rfl⟩

/-- C5, amended: for a resource whose kind resolves, the root-scoped by-name
query over a backend of resolution `W` succeeds with exactly one sample, whose
`DescribedObject.Name` is the input name and whose `WindowSeconds` is `W`, in
every environment; the namespaced by-name query does so whenever the query
client, once constructed, answers the built query with an error or with a
vector that is nil, empty, or starts with a sample. -/
theorem by_name_one_sample (env : Env) (get : HttpGet) (lister : Lister) (c : Cluster)
    (p : promCustomMetricsImplementation) (groupResource : GroupResource)
    (nspace name metricName : String) (kind : GroupVersionKind)
    (hkind : resolveKind c.Registry groupResource = Except.ok kind) :
    ((∀ queryAPI answer, env.New p.endpoint = Except.ok queryAPI →
        queryAPI (buildQuery env.unicode name groupResource.Resource metricName nspace
          p.resolutionSeconds) = Except.ok answer → answer.readable = true) →
      ∃ metric,
        (NewDefaultProvider lister (p.asImplementation env get)).GetNamespacedMetricByName c
            groupResource nspace name metricName =
          Outcome.returned (Except.ok { Items := some [metric] }) ∧
        metric.DescribedObject.Name = name ∧
        metric.WindowSeconds = some p.resolutionSeconds) ∧
    ∃ metric,
      (NewDefaultProvider lister (p.asImplementation env get)).GetRootScopedMetricByName c
          groupResource name metricName =
        Outcome.returned (Except.ok { Items := some [metric] }) ∧
      metric.DescribedObject.Name = name ∧
      metric.WindowSeconds = some p.resolutionSeconds := by
  constructor
  · intro hanswer
    obtain ⟨value, hvalue⟩ :=
      ValueForMetric_of_readable env p name groupResource nspace metricName hanswer
    have hval : (NewDefaultProvider lister (p.asImplementation env get)).impl.ValueForMetric
        name groupResource nspace metricName =
        Outcome.returned (value, p.resolutionSeconds) := by
      simp [NewDefaultProvider, promCustomMetricsImplementation.asImplementation, hvalue]
    unfold DefaultMetricsProvider.GetNamespacedMetricByName
    rw [metricFor_of_resolved _ _ _ _ _ _ _ kind value p.resolutionSeconds hkind hval]
    exact ⟨_, rfl, rfl, rfl⟩
  · have hval : (NewDefaultProvider lister (p.asImplementation env get)).impl.ValueForMetric
        name groupResource "" metricName = Outcome.returned (0, p.resolutionSeconds) := by
      simp [NewDefaultProvider, promCustomMetricsImplementation.asImplementation,
        ValueForMetric_of_empty_namespace]
    unfold DefaultMetricsProvider.GetRootScopedMetricByName
    rw [metricFor_of_resolved _ _ _ _ _ _ _ kind 0 p.resolutionSeconds hkind hval]
    exact ⟨_, rfl, rfl, rfl⟩

/-- C5, amended, for "pods" and a client that answers 1.2345. -/
theorem by_name_one_sample_witness :
    resolveKind sampleCluster.Registry podsResource =
      Except.ok { Group := "", Version := "v1", Kind := "Pod" } ∧
    ∃ metric,
      (NewDefaultProvider emptyLister
          (sampleBackend.asImplementation
            (answeringEnv (Except.ok (ModelValue.vector (some [some sample12345]))))
            noCatalog)).GetNamespacedMetricByName sampleCluster podsResource "ns1" "foo"
          "http_total" =
        Outcome.returned (Except.ok { Items := some [metric] }) ∧
      metric.DescribedObject.Name = "foo" ∧
      metric.WindowSeconds = some sampleBackend.resolutionSeconds :=
  ⟨rfl,
    (by_name_one_sample
      (answeringEnv (Except.ok (ModelValue.vector (some [some sample12345]))))
      noCatalog emptyLister sampleCluster sampleBackend podsResource "ns1" "foo" "http_total"
      { Group := "", Version := "v1", Kind := "Pod" } rfl).1
      (by
        intro queryAPI answer hnew hanswer
        have h1 : queryAPI = fun _ =>
            Except.ok (ModelValue.vector (some [some sample12345])) :=
          (Except.ok.inj hnew).symm
        subst h1
        have h2 := Except.ok.inj hanswer
        subst h2
        rfl)⟩

theorem metricsFor_of_no_item (p : DefaultMetricsProvider) (c : Cluster)
    (groupResource : GroupResource) (metricName : String) :
    p.metricsFor c groupResource metricName (RuntimeObject.list []) =
      Outcome.returned (Except.ok { Items := some [] }) := rfl

theorem metricsFor_of_unresolved (p : DefaultMetricsProvider) (c : Cluster)
    (groupResource : GroupResource) (metricName : String) (err : String)
    (objMeta : ObjectMeta) (rest : List RuntimeItem)
    (hkind : resolveKind c.Registry groupResource = Except.error err) :
    p.metricsFor c groupResource metricName
        (RuntimeObject.list (RuntimeItem.object objMeta :: rest)) =
      Outcome.returned (Except.error err) := by
  unfold DefaultMetricsProvider.metricsFor
  simp only [DefaultMetricsProvider.eachListItem]
  rw [metricFor_of_unresolved _ _ _ _ _ _ _ err hkind]

/-- C6 as written fails: the group "bogus" is not registered, so the kind
cannot be resolved, yet when the lister returns a list without objects the
selector query succeeds with an empty, non-nil `Items`. -/
theorem selector_query_unresolved_kind_no_object :
    resolveKind sampleCluster.Registry unknownGroupPods =
      Except.error "group bogus has not been registered" ∧
    emptyLister (some "ns1") unknownGroupPods.Resource "app=web" =
      Except.ok (RuntimeObject.list []) ∧
    (NewDefaultProvider emptyLister constantBackend).GetNamespacedMetricBySelector
        sampleCluster unknownGroupPods "ns1" "app=web" "http_total" =
      Outcome.returned (Except.ok { Items := some [] }) ∧
    (NewDefaultProvider emptyLister constantBackend).metricsFor sampleCluster
        unknownGroupPods "http_total" (RuntimeObject.list []) =
      Outcome.returned (Except.ok { Items := some [] }) :=
  ⟨rfl, rfl, rfl, rfl⟩

/-- C6, amended: a selector query whose lister result is not a list fails
with an error and no list, whatever the resource; one whose resource kind
cannot be resolved fails with the resolution error and no list when the
lister returned at least one object (the first one exposing its metadata),
whatever follows it; and when the lister returned no object the query
succeeds with an empty, non-nil `Items`, the kind being resolved or not. -/
theorem selector_query_failures (p : DefaultMetricsProvider) (c : Cluster)
    (groupResource : GroupResource) (metricName : String) :
    p.metricsFor c groupResource metricName RuntimeObject.notList =
      Outcome.returned (Except.error "returned object was not a list") ∧
    (∀ nspace selector,
      p.client (some nspace) groupResource.Resource selector =
        Except.ok RuntimeObject.notList →
      p.GetNamespacedMetricBySelector c groupResource nspace selector metricName =
        Outcome.returned (Except.error "returned object was not a list")) ∧
    (∀ selector,
      p.client none groupResource.Resource selector = Except.ok RuntimeObject.notList →
      p.GetRootScopedMetricBySelector c groupResource selector metricName =
        Outcome.returned (Except.error "returned object was not a list")) ∧
    (∀ err objMeta rest, resolveKind c.Registry groupResource = Except.error err →
      p.metricsFor c groupResource metricName
          (RuntimeObject.list (RuntimeItem.object objMeta :: rest)) =
        Outcome.returned (Except.error err)) ∧
    (∀ err objMeta rest nspace selector,
      resolveKind c.Registry groupResource = Except.error err →
      p.client (some nspace) groupResource.Resource selector =
        Except.ok (RuntimeObject.list (RuntimeItem.object objMeta :: rest)) →
      p.GetNamespacedMetricBySelector c groupResource nspace selector metricName =
        Outcome.returned (Except.error err)) ∧
    (∀ err objMeta rest selector,
      resolveKind c.Registry groupResource = Except.error err →
      p.client none groupResource.Resource selector =
        Except.ok (RuntimeObject.list (RuntimeItem.object objMeta :: rest)) →
      p.GetRootScopedMetricBySelector c groupResource selector metricName =
        Outcome.returned (Except.error err)) ∧
    p.metricsFor c groupResource metricName (RuntimeObject.list []) =
      Outcome.returned (Except.ok { Items := some [] }) := by
  refine ⟨rfl, ?_, ?_, ?_, ?_, ?_, rfl⟩
  · intro nspace selector hl
    unfold DefaultMetricsProvider.GetNamespacedMetricBySelector
    rw [hl]
    rfl
  · intro selector hl
    unfold DefaultMetricsProvider.GetRootScopedMetricBySelector
    rw [hl]
    rfl
  · intro err objMeta rest hk
    exact metricsFor_of_unresolved p c groupResource metricName err objMeta rest hk
  · intro err objMeta rest nspace selector hk hl
    unfold DefaultMetricsProvider.GetNamespacedMetricBySelector
    rw [hl]
    exact metricsFor_of_unresolved p c groupResource metricName err objMeta rest hk
  · intro err objMeta rest selector hk hl
    unfold DefaultMetricsProvider.GetRootScopedMetricBySelector
    rw [hl]
    exact metricsFor_of_unresolved p c groupResource metricName err objMeta rest hk

/-- C6, amended, for the unregistered group "bogus" and a list of one
object. -/
theorem selector_query_failures_witness :
    resolveKind sampleCluster.Registry unknownGroupPods =
      Except.error "group bogus has not been registered" ∧
    (NewDefaultProvider emptyLister constantBackend).metricsFor sampleCluster
        unknownGroupPods "http_total"
        (RuntimeObject.list [RuntimeItem.object { Name := "a", Namespace := "ns1" }]) =
      Outcome.returned (Except.error "group bogus has not been registered") :=
  ⟨rfl,
    (selector_query_failures (NewDefaultProvider emptyLister constantBackend) sampleCluster
      unknownGroupPods "http_total").2.2.2.1 _ { Name := "a", Namespace := "ns1" } [] rfl⟩

theorem eachListItem_of_resolved
    (f : String → GroupResource → String → String → Int × Int) (infos : List MetricInfo)
    (lister : Lister) (c : Cluster) (groupResource : GroupResource) (metricName : String)
    (kind : GroupVersionKind)
    (hkind : resolveKind c.Registry groupResource = Except.ok kind) :
    ∀ (objs : List ObjectMeta) (tick : Nat) (res : List MetricValue),
      ∃ samples : List MetricValue,
        (NewDefaultProvider lister (returningBackend f infos)).eachListItem c groupResource
            metricName (objs.map RuntimeItem.object) tick res =
          Outcome.returned (Except.ok (res ++ samples)) ∧
        samples.map (fun m => (m.DescribedObject.Name, m.DescribedObject.Namespace,
            m.MetricName)) =
          objs.map (fun o => (o.Name, o.Namespace, metricName)) := by
  intro objs
  induction objs with
  | nil =>
    intro tick res
    exact ⟨[], by simp [DefaultMetricsProvider.eachListItem], rfl⟩
  | cons o rest ih =>
    intro tick res
    have hval : (NewDefaultProvider lister (returningBackend f infos)).impl.ValueForMetric
        o.Name groupResource o.Namespace metricName =
        Outcome.returned ((f o.Name groupResource o.Namespace metricName).1,
          (f o.Name groupResource o.Namespace metricName).2) := rfl
    have hm := metricFor_of_resolved (NewDefaultProvider lister (returningBackend f infos))
      c.Registry (c.clock tick) groupResource o.Namespace o.Name metricName kind _ _ hkind hval
    obtain ⟨metric, hmet, hname, hns, hmn⟩ : ∃ metric : MetricValue,
        (NewDefaultProvider lister (returningBackend f infos)).metricFor c.Registry
            (c.clock tick) groupResource o.Namespace o.Name metricName =
          Outcome.returned (Except.ok metric) ∧
        metric.DescribedObject.Name = o.Name ∧
        metric.DescribedObject.Namespace = o.Namespace ∧
        metric.MetricName = metricName := ⟨_, hm, rfl, rfl, rfl⟩
    obtain ⟨samples, hs, hproj⟩ := ih (tick + 1) (res ++ [metric])
    refine ⟨metric :: samples, ?_, ?_⟩
    · simp only [List.map_cons, DefaultMetricsProvider.eachListItem, hmet]
      rw [hs]
      simp
    · simp [hproj, hname, hns, hmn]

/-- C7: for a resource whose kind resolves and a backend that returns, the
selector query over a list of `n` objects succeeds with a non-nil `Items` of
exactly `n` samples, the i-th carrying the name and the namespace of the i-th
object and the requested metric name; for no object, `Items` is the empty,
non-nil slice. -/
theorem metricsFor_one_sample_per_object
    (f : String → GroupResource → String → String → Int × Int) (infos : List MetricInfo)
    (lister : Lister) (c : Cluster) (groupResource : GroupResource) (metricName : String)
    (kind : GroupVersionKind) (objs : List ObjectMeta)
    (hkind : resolveKind c.Registry groupResource = Except.ok kind) :
    ∃ samples : List MetricValue,
      (NewDefaultProvider lister (returningBackend f infos)).metricsFor c groupResource
          metricName (RuntimeObject.list (objs.map RuntimeItem.object)) =
        Outcome.returned (Except.ok { Items := some samples }) ∧
      samples.length = objs.length ∧
      samples.map (fun m => (m.DescribedObject.Name, m.DescribedObject.Namespace,
          m.MetricName)) =
        objs.map (fun o => (o.Name, o.Namespace, metricName)) ∧
      (objs = [] → samples = []) := by
  obtain ⟨samples, hs, hproj⟩ :=
    eachListItem_of_resolved f infos lister c groupResource metricName kind hkind objs 0 []
  have hlen : samples.length = objs.length := by
    have := congrArg List.length hproj
    simpa using this
  refine ⟨samples, ?_, hlen, hproj, ?_⟩
  · unfold DefaultMetricsProvider.metricsFor
    simp only [hs, List.nil_append]
  · intro h0
    subst h0
    exact List.eq_nil_of_length_eq_zero hlen

/-- C7, for two pods listed in the order "a", "b". -/
theorem metricsFor_one_sample_per_object_witness :
    resolveKind sampleCluster.Registry podsResource =
      Except.ok { Group := "", Version := "v1", Kind := "Pod" } ∧
    ∃ samples : List MetricValue,
      (NewDefaultProvider emptyLister (returningBackend (fun _ _ _ _ => (7, 60)) [])).metricsFor
          sampleCluster podsResource "http_total"
          (RuntimeObject.list
            ([{ Name := "a", Namespace := "ns1" }, { Name := "b", Namespace := "ns1" }].map
              RuntimeItem.object)) =
        Outcome.returned (Except.ok { Items := some samples }) ∧
      samples.length = [({ Name := "a", Namespace := "ns1" } : ObjectMeta),
        { Name := "b", Namespace := "ns1" }].length ∧
      samples.map (fun m => (m.DescribedObject.Name, m.DescribedObject.Namespace,
          m.MetricName)) =
        [({ Name := "a", Namespace := "ns1" } : ObjectMeta),
          { Name := "b", Namespace := "ns1" }].map
          (fun o => (o.Name, o.Namespace, "http_total")) ∧
      ([({ Name := "a", Namespace := "ns1" } : ObjectMeta),
        { Name := "b", Namespace := "ns1" }] = [] → samples = []) :=
  ⟨rfl,
    metricsFor_one_sample_per_object (fun _ _ _ _ => (7, 60)) [] emptyLister sampleCluster
      podsResource "http_total" { Group := "", Version := "v1", Kind := "Pod" }
      [{ Name := "a", Namespace := "ns1" }, { Name := "b", Namespace := "ns1" }] rfl⟩

/-! ## The backend: discovery -/

theorem jsonFields_eq_nil : promLabelValues.jsonFields = [] := by decide

theorem fieldFor_eq_none (key : String) : promLabelValues.fieldFor key = none := by
  simp [promLabelValues.fieldFor, jsonFields_eq_nil]

theorem decodeMembers_eq (v : promLabelValues) (members : List (String × JSON)) :
    v.decodeMembers members = Except.ok v := by
  induction members with
  | nil => rfl
  | cons m rest ih =>
    obtain ⟨key, value⟩ := m
    simp only [promLabelValues.decodeMembers, fieldFor_eq_none]
    exact ih

theorem Unmarshal_leaves_fields (j : JSON) (v w : promLabelValues)
    (h : Unmarshal j v = Except.ok w) : w = v := by
  cases j with
  | null => simp [Unmarshal] at h; exact h.symm
  | obj members =>
    simp only [Unmarshal, decodeMembers_eq] at h
    exact (Except.ok.inj h).symm
  | bool b => simp [Unmarshal] at h
  | num n => simp [Unmarshal] at h
  | str s => simp [Unmarshal] at h
  | arr items => simp [Unmarshal] at h

/-- Discovery is empty for every answer of the catalog endpoint: no field of
`promLabelValues` is exported, `json.Unmarshal` stores nothing, and `status`
is never "success". -/
theorem ListAllMetrics_eq_nil (get : HttpGet) (p : promCustomMetricsImplementation) :
    p.ListAllMetrics get = [] := by
  unfold promCustomMetricsImplementation.ListAllMetrics
  cases hg : get (p.endpoint ++ "/api/v1/label/__name__/values") with
  | error err => simp only [hg]
  | ok body =>
    cases body with
    | unreadable err => simp only [hg]
    | malformed => simp only [hg]
    | json j =>
      cases hu : Unmarshal j { status := "", data := [] } with
      | error err => simp only [hg, hu]
      | ok labelvals =>
        have hv := Unmarshal_leaves_fields j _ _ hu
        subst hv
        simp only [hg, hu]
        rfl

/-- The loop of `ListAllMetrics`, had it been given the labels of the sample
catalog, emits the two descriptors of "x_total" and none for "y". -/
theorem appendMetricInfo_sample :
    appendMetricInfo [] ["x_total", "y"] =
      [{ GroupResource := { Group := "", Resource := "pods" }, Metric := "x_total",
         Namespaced := true },
       { GroupResource := { Group := "", Resource := "services" }, Metric := "x_total",
         Namespaced := true }] := by
  decide

/-- C8 fails on the code: for the catalog
`{"status":"success","data":["x_total","y"]}`, fetched successfully,
`ListAllMetrics` returns no descriptor at all. -/
theorem ListAllMetrics_sample_catalog :
    sampleCatalogEndpoint (sampleBackend.endpoint ++ "/api/v1/label/__name__/values") =
      Except.ok (Body.json sampleCatalog) ∧
    Unmarshal sampleCatalog { status := "", data := [] } =
      Except.ok { status := "", data := [] } ∧
    sampleBackend.ListAllMetrics sampleCatalogEndpoint = [] :=
  ⟨rfl, rfl, ListAllMetrics_eq_nil sampleCatalogEndpoint sampleBackend⟩

end CustomMetrics
